import Mathlib

/-!
Shallow embedding of the egress path of `lib/output.c` (libwebsockets):
the raw issuer `lws_issue_raw` with its truncation buffer, the protocol
write dispatcher `lws_write` (RFC 6455 header synthesis and client-side
masking), and the multipart byte-range trailing-boundary slice of
`lws_serve_http_file_fragment`.

The embedding follows the source compiled in the configuration with
`LWS_WITHOUT_EXTENSIONS` defined and without `LWS_WITH_HTTP2` /
`LWS_WITH_ACCESS_LOG`; the conditionally-compiled extension and HTTP/2
blocks are absent from that build.  Machine integers are modelled as
`Nat`/`Int`; casts to `unsigned char` are written `% 256`.  External
effects (the transport write, the random source, malloc success, the
parent protocol callback, the raw-layer result seen by `lws_write`) are
oracle inputs, and each operation returns a record of its result, the
updated connection state and the externally visible actions it took.
-/

namespace LwsOutput

/-- Transport outcome of one `lws_ssl_capable_write` call: `ok n` means
the transport accepted `n` bytes; `moreService` is the transient
`LWS_SSL_CAPABLE_MORE_SERVICE` outcome; `fatal` is
`LWS_SSL_CAPABLE_ERROR`. -/
inductive TxResult where
  | ok (n : Nat)
  | moreService
  | fatal
deriving DecidableEq

/-- Connection state consulted and mutated by `lws_issue_raw`.
`flushing` models `wsi->state == LWSS_FLUSHING_SEND_BEFORE_CLOSE`;
`trunc_alloc` holds the truncation buffer contents (`none` = no buffer),
`trunc_addr` its start address for the pointer-range guard. -/
structure IssueConn where
  could_have_pending : Bool
  flushing : Bool
  socket_is_permanently_unusable : Bool
  trunc_alloc : Option (List Nat)
  trunc_addr : Nat
  trunc_alloc_len : Nat
  trunc_offset : Nat
  trunc_len : Nat
  tx_packet_size : Nat
  rx_buffer_size : Nat
  pt_serv_buf_size : Nat
deriving DecidableEq

/-- Result of one `lws_issue_raw` call: the C return value, the updated
connection, the number of bytes offered to the transport in this call
(`none` when the transport was not touched), and whether
`lws_callback_on_writable` was invoked. -/
structure IssueOut where
  ret : Int
  conn : IssueConn
  offered : Option Nat
  rearmed : Bool
deriving DecidableEq

/-- The "limit sending" computation of `lws_issue_raw` (`lib/output.c`
lines 106-116): the byte count offered to the transport is the
protocol's `tx_packet_size` if non-zero, else `rx_buffer_size` if
non-zero, else `pt_serv_buf_size`, plus `LWS_PRE + 4`, clamped to `len`. -/
def sendLimit (c : IssueConn) (len lwsPre : Nat) : Nat :=
  let lim := (if c.tx_packet_size ≠ 0 then c.tx_packet_size
              else if c.rx_buffer_size ≠ 0 then c.rx_buffer_size
              else c.pt_serv_buf_size) + lwsPre + 4
  if len < lim then len else lim

/-- The replay bookkeeping of `lib/output.c` lines 148-149:
`trunc_offset += n; trunc_len -= n`. -/
def truncAdvance (c : IssueConn) (n : Nat) : IssueConn :=
  { c with trunc_offset := c.trunc_offset + n, trunc_len := c.trunc_len - n }

/-- Lines 140-204 of `lib/output.c` (`handle_truncated_send` onward),
after the transport accepted `n` of the `offered` bytes: replay
bookkeeping for an existing truncation buffer, the clean-completion
return, or absorption of a newly truncated send's remainder.  `c1`
already has `could_have_pending` set. -/
def issueAfterTx (c1 : IssueConn) (buf : List Nat) (len offered n : Nat)
    (mallocFails : Bool) (freshAddr : Nat) : IssueOut :=
  if c1.trunc_len ≠ 0 then
    -- we were already handling a truncated send: advance the replay window
    if c1.trunc_len - n = 0 then
      if c1.flushing then ⟨-1, truncAdvance c1 n, some offered, false⟩
      else ⟨(len : Int), truncAdvance c1 n, some offered, true⟩
    else ⟨(n : Int), truncAdvance c1 n, some offered, true⟩
  else if n = len then
    -- what we just sent went out cleanly
    ⟨(n : Int), c1, some offered, false⟩
  -- newly truncated send: buffer the remainder
  else if c1.trunc_alloc = none ∨ c1.trunc_alloc_len < len - n then
    if mallocFails then
      ⟨-1, { c1 with trunc_alloc := none, trunc_alloc_len := len - n },
       some offered, false⟩
    else
      ⟨(len : Int),
       { c1 with trunc_alloc := some ((buf.drop n).take (len - n)),
                 trunc_addr := freshAddr,
                 trunc_alloc_len := len - n,
                 trunc_offset := 0,
                 trunc_len := len - n },
       some offered, true⟩
  else
    ⟨(len : Int),
     { c1 with trunc_alloc := some ((buf.drop n).take (len - n) ++
                 (c1.trunc_alloc.getD []).drop (len - n)),
               trunc_offset := 0,
               trunc_len := len - n },
     some offered, true⟩

/-- `lws_issue_raw(wsi, buf, len)` from `lib/output.c` lines 46-205, in
the `LWS_WITHOUT_EXTENSIONS` configuration.  `bufAddr` is the address of
`buf` (used only by the pointer-range guard), `buf` its byte contents,
`lwsPre` the `LWS_PRE` constant, `tx` the transport outcome oracle,
`mallocFails` the `lws_malloc` oracle, `freshAddr` the address a fresh
allocation would get.  The unsigned decrement `wsi->trunc_len -= n` is
modelled with `Nat` subtraction; real callers replay the truncation
region with `len = trunc_len`, so `n` never exceeds `trunc_len` there. -/
def lws_issue_raw (c : IssueConn) (bufAddr : Nat) (buf : List Nat) (len : Nat)
    (lwsPre : Nat) (tx : TxResult) (mallocFails : Bool) (freshAddr : Nat) : IssueOut :=
  -- detect a second call without going through the event loop
  if c.could_have_pending then
    ⟨-1, c, none, false⟩
  else if len = 0 then
    ⟨0, c, none, false⟩
  -- just ignore sends after we cleared the truncation buffer
  else if c.flushing ∧ c.trunc_len = 0 then
    ⟨(len : Int), c, none, false⟩
  -- sending new material while a truncated send is pending, from outside
  -- the truncation region, is illegal
  else if c.trunc_len ≠ 0 ∧
      (bufAddr < c.trunc_addr ∨ c.trunc_addr + c.trunc_len + c.trunc_offset < bufAddr) then
    ⟨-1, c, none, false⟩
  else
    let offered := sendLimit c len lwsPre
    -- something got written, it can have been truncated now
    let c1 := { c with could_have_pending := true }
    match tx with
    | TxResult.fatal =>
      ⟨-1, { c1 with socket_is_permanently_unusable := true }, some offered, false⟩
    | TxResult.moreService =>
      -- nothing got sent, not fatal: treat as a truncated send of 0 bytes
      issueAfterTx c1 buf len offered 0 mallocFails freshAddr
    | TxResult.ok n =>
      issueAfterTx c1 buf len offered n mallocFails freshAddr

/-- Modelled from the spec: the `lws_write_protocol` enumeration is declared
in a public header outside `src/`.  The spec (§4.1) fixes the layout: a 5-bit
opcode class in the low bits, flag bits (`NO_FIN`, `H2_STREAM_END`) above.
Values follow the library's public API. -/
def LWS_WRITE_TEXT : Nat := 0

/-- Modelled from the spec: see `LWS_WRITE_TEXT`. -/
def LWS_WRITE_BINARY : Nat := 1

/-- Modelled from the spec: see `LWS_WRITE_TEXT`. -/
def LWS_WRITE_CONTINUATION : Nat := 2

/-- Modelled from the spec: see `LWS_WRITE_TEXT`. -/
def LWS_WRITE_HTTP : Nat := 3

/-- Modelled from the spec: see `LWS_WRITE_TEXT`. -/
def LWS_WRITE_CLOSE : Nat := 4

/-- Modelled from the spec: see `LWS_WRITE_TEXT`. -/
def LWS_WRITE_PING : Nat := 5

/-- Modelled from the spec: see `LWS_WRITE_TEXT`. -/
def LWS_WRITE_PONG : Nat := 6

/-- Modelled from the spec: see `LWS_WRITE_TEXT`. -/
def LWS_WRITE_HTTP_FINAL : Nat := 7

/-- Modelled from the spec: see `LWS_WRITE_TEXT`. -/
def LWS_WRITE_HTTP_HEADERS : Nat := 8

/-- Modelled from the spec: see `LWS_WRITE_TEXT`. -/
def LWS_WRITE_HTTP_HEADERS_CONTINUATION : Nat := 9

/-- Modelled from the spec: the multi-fragment continuation flag bit of `wp`
(spec §4.1: "`NO_FIN` (multi-fragment continuation)" packed in the high
flag bits; the source masks flags with `0xc0`). -/
def LWS_WRITE_NO_FIN : Nat := 0x40

/-- Modelled from the spec: RFC 6455 opcode, spec §4.1 step 8
("0=continuation, 1=text, 2=binary, 8=close, 9=ping, 10=pong"). -/
def LWSWSOPC_CONTINUATION : Nat := 0x0

/-- Modelled from the spec: see `LWSWSOPC_CONTINUATION`. -/
def LWSWSOPC_TEXT_FRAME : Nat := 0x1

/-- Modelled from the spec: see `LWSWSOPC_CONTINUATION`. -/
def LWSWSOPC_BINARY_FRAME : Nat := 0x2

/-- Modelled from the spec: see `LWSWSOPC_CONTINUATION`. -/
def LWSWSOPC_CLOSE : Nat := 0x8

/-- Modelled from the spec: see `LWSWSOPC_CONTINUATION`. -/
def LWSWSOPC_PING : Nat := 0x9

/-- Modelled from the spec: see `LWSWSOPC_CONTINUATION`. -/
def LWSWSOPC_PONG : Nat := 0xa

/-- The `switch (wp & 0xf)` opcode mapping of `lws_write`
(`lib/output.c` lines 399-422); `none` is the `default:` arm that fails
the write. -/
def opcFor (w : Nat) : Option Nat :=
  if w = LWS_WRITE_TEXT then some LWSWSOPC_TEXT_FRAME
  else if w = LWS_WRITE_BINARY then some LWSWSOPC_BINARY_FRAME
  else if w = LWS_WRITE_CONTINUATION then some LWSWSOPC_CONTINUATION
  else if w = LWS_WRITE_CLOSE then some LWSWSOPC_CLOSE
  else if w = LWS_WRITE_PING then some LWSWSOPC_PING
  else if w = LWS_WRITE_PONG then some LWSWSOPC_PONG
  else none

/-- The RFC 6455 base frame header written at `buf[-pre]` by `lws_write`
(`lib/output.c` lines 427-458).  `opcByte` is the opcode-plus-FIN byte
`n`, `maskBit` the `is_masked_bit` value (0x80 for client mode, else 0),
`lp64` the `__LP64__` configuration, `len` the payload length.  Stores
to `unsigned char` are modelled with `% 256`. -/
def frameHeader (opcByte maskBit : Nat) (lp64 : Bool) (len : Nat) : List Nat :=
  if len < 126 then
    [opcByte % 256, (len ||| maskBit) % 256]
  else if len < 65536 then
    [opcByte % 256, (126 ||| maskBit) % 256, (len >>> 8) % 256, len % 256]
  else
    [opcByte % 256, (127 ||| maskBit) % 256] ++
    (if lp64 then
       [((len >>> 56) &&& 0x7f) % 256, (len >>> 48) % 256,
        (len >>> 40) % 256, (len >>> 32) % 256]
     else [0, 0, 0, 0]) ++
    [(len >>> 24) % 256, (len >>> 16) % 256, (len >>> 8) % 256, len % 256]

/-- The masking loop of `lws_write` (`lib/output.c` lines 480-482):
byte `i` of the payload is XORed with `mask[(mask_idx++) & 3]`, with the
running index starting at `idx`. -/
def maskPayload (mask : List Nat) : Nat → List Nat → List Nat
  | _, [] => []
  | idx, b :: rest => (b ^^^ mask.getD (idx &&& 3) 0) :: maskPayload mask (idx + 1) rest

/-- The `wsi->ws` block consulted and mutated by `lws_write`. -/
structure WsConn where
  inside_frame : Bool
  clean_buffer : Bool
  mask : List Nat
  mask_idx : Nat
  stashed_write_pending : Bool
  stashed_write_type : Nat
  tx_draining_ext : Bool
  tx_draining_stashed_wp : Nat
deriving DecidableEq

/-- Connection state consulted by `lws_write`.  `parentCarries` models the
source field `parent_carries_io`; `isClient` models
`wsi->mode == LWSCM_WS_CLIENT`; `state_is_ws` models
`lws_state_is_ws(wsi->state)`; `state_close_ok` models membership of
`wsi->state` in {`LWSS_RETURNED_CLOSE_ALREADY`,
`LWSS_WAITING_TO_SEND_CLOSE_NOTIFICATION`, `LWSS_AWAITING_CLOSE_ACK`}. -/
structure WriteConn where
  parentCarries : Bool
  isClient : Bool
  h2_stream_carries_ws : Bool
  state_is_ws : Bool
  state_close_ok : Bool
  ietf_spec_revision : Nat
  ws : WsConn
deriving DecidableEq

/-- Oracles for the external effects of one `lws_write` call:
`parentCbRet` the parent protocol callback result, `randOk` whether
`lws_get_random` produced 4 bytes, `nonce` those bytes, `rawRet` the
raw-layer (`lws_issue_raw` / `lws_issue_raw_ext_access`) result, `lp64`
the `__LP64__` configuration. -/
structure WriteEnv where
  parentCbRet : Int
  randOk : Bool
  nonce : List Nat
  rawRet : Int
  lp64 : Bool
deriving DecidableEq

/-- The externally visible dispatch made by one `lws_write` call:
nothing, the `{buf, len, wp}` pass-through record handed to the parent
protocol callback, or the byte region `buf - pre .. buf + len` handed to
the raw layer. -/
inductive WriteEff where
  | noSend
  | toParent (buf : List Nat) (len : Nat) (wp : Nat)
  | toRaw (bytes : List Nat)
deriving DecidableEq

/-- Result of one `lws_write` call. -/
structure WriteOut where
  ret : Int
  ws : WsConn
  eff : WriteEff
deriving DecidableEq

/-- Lines 588-606 of `lib/output.c`: the dispatch through
`lws_issue_raw_ext_access` and the `inside_frame` bookkeeping.
`lws_issue_raw_ext_access` itself is not under `src/`; per spec §4.2 it
is a pass-through to the raw issuer in the no-extensions build, so its
result is the raw-layer oracle `env.rawRet`. -/
def extAccessTail (ws : WsConn) (wire : List Nat) (len pre : Nat) (env : WriteEnv) : WriteOut :=
  if env.rawRet ≤ 0 then
    { ret := env.rawRet, ws := { ws with inside_frame := true }, eff := WriteEff.toRaw wire }
  else if env.rawRet = (len : Int) + (pre : Int) then
    -- everything in the buffer was handled (or rebuffered): inside_frame,
    -- set across the call, is cleared again
    { ret := (len : Int), ws := { ws with inside_frame := false },
      eff := WriteEff.toRaw wire }
  else
    { ret := env.rawRet - (pre : Int), ws := { ws with inside_frame := true },
      eff := WriteEff.toRaw wire }

/-- The `send_raw` switch of `lws_write` (`lib/output.c` lines 489-606,
without the `LWS_WITH_HTTP2` block): TEXT/BINARY/CONTINUATION on a plain
ws connection break out to the extension-access dispatch; CLOSE falls
through with HTTP/PING/PONG to a direct `lws_issue_raw` of
`buf - pre, len + pre`. -/
def sendRawStage (c : WriteConn) (ws : WsConn) (wire : List Nat) (len : Nat)
    (wpf pre : Nat) (env : WriteEnv) : WriteOut :=
  if wpf = LWS_WRITE_TEXT ∨ wpf = LWS_WRITE_BINARY ∨ wpf = LWS_WRITE_CONTINUATION then
    if c.h2_stream_carries_ws then
      { ret := env.rawRet, ws := ws, eff := WriteEff.toRaw wire }
    else extAccessTail ws wire len pre env
  else if wpf = LWS_WRITE_CLOSE ∨ wpf = LWS_WRITE_HTTP ∨ wpf = LWS_WRITE_HTTP_FINAL ∨
          wpf = LWS_WRITE_HTTP_HEADERS ∨ wpf = LWS_WRITE_HTTP_HEADERS_CONTINUATION ∨
          wpf = LWS_WRITE_PONG ∨ wpf = LWS_WRITE_PING then
    { ret := env.rawRet, ws := ws, eff := WriteEff.toRaw wire }
  else extAccessTail ws wire len pre env

/-- The masking stage of `lws_write` (`lib/output.c` lines 462-487) for a
frame whose header was synthesized in this call (`inside_frame` was
false).  For a client, a fresh nonce is fetched (failing the write if
the random source fails) and `mask_idx` reset; when `hasDrop` holds
(`dropmask` was set, i.e. revision 13) the payload is XOR-masked and the
nonce is copied into the 4 reserved bytes between header and payload. -/
def maskStage (c : WriteConn) (ws : WsConn) (p : List Nat) (len : Nat)
    (wpf pre : Nat) (hdr : List Nat) (hasDrop : Bool) (env : WriteEnv) : WriteOut :=
  if c.isClient then
    if env.randOk = false then { ret := -1, ws := ws, eff := WriteEff.noSend }
    else if hasDrop then
      -- mask generation reset mask_idx to 0; the masking loop advanced it
      -- by the payload length and the nonce was copied before the payload
      sendRawStage c { ws with mask := env.nonce, mask_idx := len }
        (hdr ++ env.nonce ++ maskPayload env.nonce 0 p) len wpf pre env
    else
      sendRawStage c { ws with mask := env.nonce, mask_idx := 0 } (hdr ++ p) len wpf pre env
  else sendRawStage c ws (hdr ++ p) len wpf pre env

/-- `lws_write(wsi, buf, len, wp)` from `lib/output.c` lines 207-607, in
the configuration without extensions, HTTP/2 or the access log.  `p` is
the payload contents at `buf`.  In this configuration the extension
`PAYLOAD_TX` block is compiled out, so `eff_buf` always equals the
caller's buffer and `orig_len = len` throughout. -/
def lws_write (c : WriteConn) (p : List Nat) (len : Nat) (wp : Nat) (env : WriteEnv) : WriteOut :=
  let masked7 := c.isClient
  if c.parentCarries then
    { ret := if env.parentCbRet ≠ 0 then 1 else (len : Int),
      ws := c.ws, eff := WriteEff.toParent p len wp }
  else if 2 ^ 31 ≤ len then
    -- suspicious len: (int)len < 0
    { ret := -1, ws := c.ws, eff := WriteEff.noSend }
  else
    -- forced drain continuation: override wp, inherit the stashed flags
    let drained := c.ws.tx_draining_ext = true ∧ c.state_is_ws = true
    let wpA := if drained then
                 (c.ws.tx_draining_stashed_wp &&& 0xc0) ||| LWS_WRITE_CONTINUATION
               else wp
    let ws0 := if drained then { c.ws with tx_draining_ext := false } else c.ws
    let wp1f := wpA &&& 0x1f
    if wp1f = LWS_WRITE_HTTP ∨ wp1f = LWS_WRITE_HTTP_FINAL ∨
       wp1f = LWS_WRITE_HTTP_HEADERS_CONTINUATION ∨ wp1f = LWS_WRITE_HTTP_HEADERS then
      -- send_raw with pre = 0
      { ret := env.rawRet, ws := ws0, eff := WriteEff.toRaw p }
    else if c.state_is_ws = false ∧ (c.state_close_ok = false ∨ wp1f ≠ LWS_WRITE_CLOSE) then
      -- not in a state to send ws stuff: just send nothing
      { ret := 0, ws := ws0, eff := WriteEff.noSend }
    else if ws0.inside_frame then
      -- continuing a frame that already had its header done; dropmask is
      -- never set on this path, so neither nonce regeneration nor masking
      sendRawStage c ws0 p len wp1f 0 env
    else
      let ws1 := { ws0 with clean_buffer := true }
      -- the switch ((int)wp): only the exact PING/PONG/CLOSE values skip
      -- the default arm with the stashed-write replacement
      let stash := ¬ (wpA = LWS_WRITE_PING ∨ wpA = LWS_WRITE_PONG ∨ wpA = LWS_WRITE_CLOSE) ∧
                   len ≠ 0 ∧ ws1.stashed_write_pending = true
      let wpB := if stash then (wpA &&& 0xc0) ||| ws1.stashed_write_type else wpA
      let ws2 := if stash then { ws1 with stashed_write_pending := false } else ws1
      let wp2f := wpB &&& 0x1f
      if c.ietf_spec_revision = 13 then
        match opcFor (wpB &&& 0xf) with
        | none => { ret := -1, ws := ws2, eff := WriteEff.noSend }
        | some opc =>
          let opcByte := if wpB &&& LWS_WRITE_NO_FIN = 0 then opc ||| (1 <<< 7) else opc
          let maskBit := if masked7 then 0x80 else 0
          let hdr := frameHeader opcByte maskBit env.lp64 len
          maskStage c ws2 p len wp2f ((if masked7 then 4 else 0) + hdr.length) hdr masked7 env
      else
        -- unknown ietf_spec_revision: no header synthesized, pre stays 0
        maskStage c ws2 p len wp2f 0 [] false env

/-- Modelled from the spec: `lws_snprintf` is declared outside `src/`.
The spec (§4.4, §6) states that the pump appends the trailing multipart
boundary bytes into the scratch buffer; the call is modelled as a
bounded byte-string write at position `pos` returning the number of
bytes written. -/
def lws_snprintf (dest : List Nat) (pos size : Nat) (s : List Nat) : List Nat × Nat :=
  let w := s.take size
  (dest.take pos ++ w ++ dest.drop (pos + w.length), w.length)

/-- The bytes of the multipart boundary `_lws` followed by CR LF. -/
def boundaryBytes : List Nat := [0x5f, 0x6c, 0x77, 0x73, 0x0d, 0x0a]

/-- The trailing-boundary step of `lws_serve_http_file_fragment`
(`lib/output.c` lines 753-762): when the last range of a multipart (2+
ranges) response has just produced its final byte
(`send_ctr + 1 == count_ranges`, `count_ranges > 1`,
`budget - amount == 0`), append the trailing boundary into the scratch
buffer after the `n` payload bytes and grow `n` by the returned count.
`budget` and `amount` are 64-bit file quantities, so the C test
`budget - amount == 0` holds exactly when they are equal. -/
def rangesTrailingBoundary (send_ctr count_ranges budget amount : Nat)
    (pstart : List Nat) (n : Nat) : List Nat × Nat :=
  if send_ctr + 1 = count_ranges ∧ 1 < count_ranges ∧ budget = amount then
    let w := lws_snprintf pstart n 6 boundaryBytes
    (w.1, n + w.2)
  else (pstart, n)

/-- A quiescent connection used to instantiate theorems on concrete inputs. -/
def connBase : IssueConn :=
  { could_have_pending := false, flushing := false,
    socket_is_permanently_unusable := false, trunc_alloc := none,
    trunc_addr := 0, trunc_alloc_len := 0, trunc_offset := 0, trunc_len := 0,
    tx_packet_size := 0, rx_buffer_size := 0, pt_serv_buf_size := 64 }

/-- A connection with `could_have_pending` still set from an earlier issue. -/
def connPending : IssueConn := { connBase with could_have_pending := true }

/-- A connection replaying a pending truncated send: 2 bytes already sent
(`trunc_offset = 1` after an earlier incomplete replay), 1 byte left. -/
def connTrunc : IssueConn :=
  { connBase with
    trunc_alloc := some [7, 8], trunc_addr := 100,
    trunc_alloc_len := 2, trunc_offset := 1, trunc_len := 1 }

/-- A quiescent `wsi->ws` block. -/
def wsBase : WsConn :=
  { inside_frame := false, clean_buffer := false, mask := [0, 0, 0, 0],
    mask_idx := 0, stashed_write_pending := false, stashed_write_type := 0,
    tx_draining_ext := false, tx_draining_stashed_wp := 0 }

/-- A server-mode ws connection in a writable state, protocol revision 13. -/
def serverConn : WriteConn :=
  { parentCarries := false, isClient := false, h2_stream_carries_ws := false,
    state_is_ws := true, state_close_ok := false, ietf_spec_revision := 13,
    ws := wsBase }

/-- A client-mode ws connection in a writable state, protocol revision 13. -/
def clientConn : WriteConn := { serverConn with isClient := true }

/-- A client-mode connection re-entered mid-frame: the header of the
current frame was synthesized by an earlier call, which left the nonce
`[1, 0, 0, 0]` and `mask_idx = 4` behind. -/
def clientInsideConn : WriteConn :=
  { clientConn with
    ws := { wsBase with inside_frame := true, mask := [1, 0, 0, 0], mask_idx := 4 } }

/-- A connection whose I/O is carried by its parent. -/
def childConn : WriteConn := { serverConn with parentCarries := true }

/-- A default oracle environment for `lws_write`. -/
def envBase : WriteEnv :=
  { parentCbRet := 0, randOk := true, nonce := [0xA1, 0xB2, 0xC3, 0xD4],
    rawRet := 4, lp64 := false }

/-- Oracle environment whose parent callback fails with a non-zero code. -/
def envParentFails : WriteEnv := { envBase with parentCbRet := 5 }

/-- Oracle environment whose raw layer accepts one byte. -/
def envRaw1 : WriteEnv := { envBase with rawRet := 1 }

/-- Claim C10: on a connection with `could_have_pending` clear, a
zero-length `lws_issue_raw` call returns 0 immediately, does not touch
the transport, re-arms no writable notification, and leaves the
connection state (including the truncation buffer fields and
`could_have_pending`) unchanged. -/
theorem claim10_zero_length_issue (c : IssueConn) (bufAddr : Nat) (buf : List Nat)
    (lwsPre : Nat) (tx : TxResult) (mf : Bool) (fa : Nat)
    (h : c.could_have_pending = false) :
    lws_issue_raw c bufAddr buf 0 lwsPre tx mf fa = ⟨0, c, none, false⟩ := by
  simp [lws_issue_raw, h]

/-- Witness for `claim10_zero_length_issue` at a concrete connection. -/
theorem claim10_zero_length_issue_witness :
    lws_issue_raw connBase 5 [] 0 16 (TxResult.ok 0) false 0 = ⟨0, connBase, none, false⟩ :=
  claim10_zero_length_issue connBase 5 [] 16 (TxResult.ok 0) false 0 rfl

/-- On every branch of the post-transport handling the `offered` count
is reported. -/
theorem issueAfterTx_offered (c1 : IssueConn) (buf : List Nat) (len offered n : Nat)
    (mf : Bool) (fa : Nat) :
    (issueAfterTx c1 buf len offered n mf fa).offered = some offered := by
  unfold issueAfterTx
  split_ifs <;> rfl

/-- The post-transport handling never changes `could_have_pending`. -/
theorem issueAfterTx_pending (c1 : IssueConn) (buf : List Nat) (len offered n : Nat)
    (mf : Bool) (fa : Nat) :
    (issueAfterTx c1 buf len offered n mf fa).conn.could_have_pending
      = c1.could_have_pending := by
  unfold issueAfterTx
  split_ifs <;> rfl

/-- Claim C3: entering `lws_issue_raw` with `could_have_pending` set
fails with -1 without offering anything to the transport and without
changing the connection; and on every path that does offer bytes to the
transport, the call itself sets `could_have_pending`. -/
theorem claim3_back_to_back (c : IssueConn) (bufAddr : Nat) (buf : List Nat)
    (len lwsPre : Nat) (tx : TxResult) (mf : Bool) (fa : Nat) :
    (c.could_have_pending = true →
      lws_issue_raw c bufAddr buf len lwsPre tx mf fa = ⟨-1, c, none, false⟩) ∧
    ((lws_issue_raw c bufAddr buf len lwsPre tx mf fa).offered.isSome = true →
      (lws_issue_raw c bufAddr buf len lwsPre tx mf fa).conn.could_have_pending = true) := by
  constructor
  · intro h
    simp [lws_issue_raw, h]
  · intro h
    unfold lws_issue_raw at h ⊢
    split_ifs at h ⊢ <;>
      first
        | (simp at h; done)
        | (cases tx <;> simp [issueAfterTx_pending])

/-- Witness for `claim3_back_to_back`: the first conjunct at a concrete
pending connection. -/
theorem claim3_back_to_back_witness :
    lws_issue_raw connPending 5 [1] 1 16 (TxResult.ok 1) false 0
      = ⟨-1, connPending, none, false⟩ :=
  (claim3_back_to_back connPending 5 [1] 1 16 (TxResult.ok 1) false 0).1 rfl

/-- Whenever `lws_issue_raw` reports an offered byte count, that count
is exactly the `sendLimit` clamp. -/
theorem issue_offered_eq_sendLimit (c : IssueConn) (bufAddr : Nat) (buf : List Nat)
    (len lwsPre : Nat) (tx : TxResult) (mf : Bool) (fa : Nat) (k : Nat)
    (h : (lws_issue_raw c bufAddr buf len lwsPre tx mf fa).offered = some k) :
    k = sendLimit c len lwsPre := by
  unfold lws_issue_raw at h
  split_ifs at h <;>
    first
      | (simp at h; done)
      | (cases tx <;> simp [issueAfterTx_offered] at h <;> omega)

/-- The `sendLimit` clamp is bounded by the largest of the three size
sources plus `LWS_PRE + 4`, and by `len`. -/
theorem sendLimit_le (c : IssueConn) (len lwsPre : Nat) :
    sendLimit c len lwsPre
      ≤ max c.tx_packet_size (max c.rx_buffer_size c.pt_serv_buf_size) + lwsPre + 4 ∧
    sendLimit c len lwsPre ≤ len := by
  simp only [sendLimit]
  have h1 := Nat.le_max_left c.tx_packet_size (max c.rx_buffer_size c.pt_serv_buf_size)
  have h2 := Nat.le_max_left c.rx_buffer_size c.pt_serv_buf_size
  have h3 := Nat.le_max_right c.rx_buffer_size c.pt_serv_buf_size
  have h4 := Nat.le_max_right c.tx_packet_size (max c.rx_buffer_size c.pt_serv_buf_size)
  split_ifs <;> constructor <;> omega

/-- Claim C5: the bytes offered to the transport by one `lws_issue_raw`
call never exceed `max(tx_packet_size, rx_buffer_size, pt_serv_buf_size)
+ LWS_PRE + 4`, nor `len`; and when the transport accepts `k < len`
bytes on a fresh (no pending truncation) issue, the remainder is
absorbed into the truncation buffer in the same call. -/
theorem claim5_send_cap (c : IssueConn) (bufAddr : Nat) (buf : List Nat)
    (len lwsPre : Nat) (fa : Nat) :
    (∀ (tx : TxResult) (mf : Bool) (k : Nat),
        (lws_issue_raw c bufAddr buf len lwsPre tx mf fa).offered = some k →
        k ≤ max c.tx_packet_size (max c.rx_buffer_size c.pt_serv_buf_size) + lwsPre + 4
          ∧ k ≤ len) ∧
    (∀ k : Nat, c.could_have_pending = false → c.trunc_len = 0 → c.flushing = false →
        k < len →
        (lws_issue_raw c bufAddr buf len lwsPre (TxResult.ok k) false fa).conn.trunc_len
          = len - k) := by
  constructor
  · intro tx mf k h
    have hk := issue_offered_eq_sendLimit c bufAddr buf len lwsPre tx mf fa k h
    have hb := sendLimit_le c len lwsPre
    omega
  · intro k h0 h1 h2 hk
    have hlen : ¬ len = 0 := by omega
    have hf : ¬ (c.flushing = true ∧ c.trunc_len = 0) := by simp [h2]
    have hg : ¬ (c.trunc_len ≠ 0 ∧
        (bufAddr < c.trunc_addr ∨ c.trunc_addr + c.trunc_len + c.trunc_offset < bufAddr)) := by
      simp [h1]
    have hkl : ¬ k = len := by omega
    simp only [lws_issue_raw, h0, hlen, hf, hg, if_false, if_neg, Bool.false_eq_true]
    unfold issueAfterTx
    simp only [h1]
    split_ifs <;> simp_all

/-- Witness for `claim5_send_cap`: both conjuncts instantiated on a
concrete fresh connection whose transport accepts 3 of 10 bytes. -/
theorem claim5_send_cap_witness :
    ((lws_issue_raw connBase 500 [0, 1, 2, 3, 4, 5, 6, 7, 8, 9] 10 16
        (TxResult.ok 3) false 900).offered = some 10 →
      10 ≤ max connBase.tx_packet_size
            (max connBase.rx_buffer_size connBase.pt_serv_buf_size) + 16 + 4 ∧ 10 ≤ 10) ∧
    (lws_issue_raw connBase 500 [0, 1, 2, 3, 4, 5, 6, 7, 8, 9] 10 16
        (TxResult.ok 3) false 900).conn.trunc_len = 10 - 3 :=
  ⟨(claim5_send_cap connBase 500 [0, 1, 2, 3, 4, 5, 6, 7, 8, 9] 10 16 900).1
      (TxResult.ok 3) false 10,
   (claim5_send_cap connBase 500 [0, 1, 2, 3, 4, 5, 6, 7, 8, 9] 10 16 900).2
      3 rfl rfl rfl (by decide)⟩

/-- Outcome of the newly-truncated-send path of the post-transport
handling: with no pending truncation and `n < len` accepted, the
remainder `buf[n..len-1]` is stored at the front of the truncation
buffer, whose capacity is at least `len - n`; the offsets are reset, a
writable callback is requested and the full `len` is returned. -/
theorem issueAfterTx_fresh (c1 : IssueConn) (buf : List Nat) (len offered n fa : Nat)
    (h1 : c1.trunc_len = 0) (h2 : n < len) (hbuf : len ≤ buf.length) :
    (issueAfterTx c1 buf len offered n false fa).ret = (len : Int) ∧
    (issueAfterTx c1 buf len offered n false fa).conn.trunc_offset = 0 ∧
    (issueAfterTx c1 buf len offered n false fa).conn.trunc_len = len - n ∧
    len - n ≤ (issueAfterTx c1 buf len offered n false fa).conn.trunc_alloc_len ∧
    ((issueAfterTx c1 buf len offered n false fa).conn.trunc_alloc.getD []).take (len - n)
      = (buf.drop n).take (len - n) ∧
    (issueAfterTx c1 buf len offered n false fa).rearmed = true := by
  have hkl : ¬ n = len := by omega
  set A := (buf.drop n).take (len - n) with hA
  have hdl : A.length = len - n := by
    simp [hA, List.length_take, List.length_drop]
    omega
  unfold issueAfterTx
  rw [if_neg (by simp [h1]), if_neg hkl]
  by_cases hc : c1.trunc_alloc = none ∨ c1.trunc_alloc_len < len - n
  · rw [if_pos hc]
    simp only [Bool.false_eq_true, if_false]
    refine ⟨by simp, by simp, by simp, by simp, ?_, by simp⟩
    show (Option.getD (some A) []).take (len - n) = A
    rw [Option.getD_some, ← hdl, List.take_length]
  · rw [if_neg hc]
    obtain ⟨-, hge⟩ := not_or.mp hc
    refine ⟨rfl, rfl, rfl, ?_, ?_, rfl⟩
    · show len - n ≤ c1.trunc_alloc_len
      omega
    · show (Option.getD (some (A ++ (c1.trunc_alloc.getD []).drop (len - n))) []).take
          (len - n) = A
      rw [Option.getD_some, ← hdl, List.take_left]

/-- Claim C4: a fresh (no pending truncation) `lws_issue_raw` whose
transport accepts `n < len` bytes stores bytes `buf[n..len-1]` in a
truncation buffer of capacity at least `len - n`, sets
`trunc_offset = 0` and `trunc_len = len - n`, re-arms the writable
notification and returns the full `len`; `MORE_SERVICE` is handled as
`n = 0`; and when the required allocation fails the call returns a
negative value. -/
theorem claim4_new_truncation (c : IssueConn) (bufAddr : Nat) (buf : List Nat)
    (len lwsPre n fa : Nat)
    (h0 : c.could_have_pending = false) (h1 : c.trunc_len = 0)
    (h2 : c.flushing = false) (h3 : n < len) (hbuf : len ≤ buf.length) :
    ((lws_issue_raw c bufAddr buf len lwsPre (TxResult.ok n) false fa).ret = (len : Int) ∧
     (lws_issue_raw c bufAddr buf len lwsPre (TxResult.ok n) false fa).conn.trunc_offset = 0 ∧
     (lws_issue_raw c bufAddr buf len lwsPre (TxResult.ok n) false fa).conn.trunc_len
       = len - n ∧
     len - n ≤
       (lws_issue_raw c bufAddr buf len lwsPre (TxResult.ok n) false fa).conn.trunc_alloc_len ∧
     ((lws_issue_raw c bufAddr buf len lwsPre (TxResult.ok n) false fa).conn.trunc_alloc.getD
        []).take (len - n) = (buf.drop n).take (len - n) ∧
     (lws_issue_raw c bufAddr buf len lwsPre (TxResult.ok n) false fa).rearmed = true) ∧
    lws_issue_raw c bufAddr buf len lwsPre TxResult.moreService false fa
      = lws_issue_raw c bufAddr buf len lwsPre (TxResult.ok 0) false fa ∧
    (c.trunc_alloc = none →
      (lws_issue_raw c bufAddr buf len lwsPre (TxResult.ok n) true fa).ret = -1) := by
  have hlen : ¬ len = 0 := by omega
  have hf : ¬ (c.flushing = true ∧ c.trunc_len = 0) := by simp [h2]
  have hg : ¬ (c.trunc_len ≠ 0 ∧
      (bufAddr < c.trunc_addr ∨ c.trunc_addr + c.trunc_len + c.trunc_offset < bufAddr)) := by
    simp [h1]
  refine ⟨?_, ?_, ?_⟩
  · simp only [lws_issue_raw, h0, hlen, hf, hg, if_false, Bool.false_eq_true]
    exact issueAfterTx_fresh _ buf len _ n fa (by simpa using h1) h3 hbuf
  · simp only [lws_issue_raw]
  · intro hna
    have hkl : ¬ n = len := by omega
    simp only [lws_issue_raw, h0, hlen, hf, hg, if_false, Bool.false_eq_true]
    unfold issueAfterTx
    simp [h1, hkl, hna]

/-- Witness for `claim4_new_truncation` on a 10-byte write of which the
transport accepts 3. -/
theorem claim4_new_truncation_witness :
    (lws_issue_raw connBase 500 [0, 1, 2, 3, 4, 5, 6, 7, 8, 9] 10 16
       (TxResult.ok 3) false 900).conn.trunc_len = 10 - 3 ∧
    (lws_issue_raw connBase 500 [0, 1, 2, 3, 4, 5, 6, 7, 8, 9] 10 16
       (TxResult.ok 3) false 900).ret = (10 : Int) :=
  ⟨((claim4_new_truncation connBase 500 [0, 1, 2, 3, 4, 5, 6, 7, 8, 9] 10 16 3 900
      rfl rfl rfl (by decide) (by decide)).1).2.2.1,
   ((claim4_new_truncation connBase 500 [0, 1, 2, 3, 4, 5, 6, 7, 8, 9] 10 16 3 900
      rfl rfl rfl (by decide) (by decide)).1).1⟩

/-- The post-transport handling preserves the truncation-buffer bound
`trunc_offset + trunc_len ≤ trunc_alloc_len` provided it held on entry
and the transport never accepts more than the pending replay length. -/
theorem issueAfterTx_invariant (c1 : IssueConn) (buf : List Nat) (len offered n : Nat)
    (mf : Bool) (fa : Nat)
    (hInv : c1.trunc_len ≠ 0 → c1.trunc_offset + c1.trunc_len ≤ c1.trunc_alloc_len)
    (hn : c1.trunc_len ≠ 0 → n ≤ c1.trunc_len) :
    (issueAfterTx c1 buf len offered n mf fa).conn.trunc_len ≠ 0 →
      (issueAfterTx c1 buf len offered n mf fa).conn.trunc_offset +
        (issueAfterTx c1 buf len offered n mf fa).conn.trunc_len ≤
        (issueAfterTx c1 buf len offered n mf fa).conn.trunc_alloc_len := by
  unfold issueAfterTx truncAdvance
  split_ifs <;> intro h <;> simp_all <;> omega

/-- Claim C6: every `lws_issue_raw` execution preserves the
truncation-buffer invariant `trunc_len > 0 → trunc_offset + trunc_len ≤
trunc_alloc_len`, given the transport contract (it accepts at most `len`
bytes) and the caller contract for replay calls (`len` does not exceed
the pending `trunc_len`). -/
theorem claim6_trunc_invariant (c : IssueConn) (bufAddr : Nat) (buf : List Nat)
    (len lwsPre : Nat) (tx : TxResult) (mf : Bool) (fa : Nat)
    (hInv : c.trunc_len ≠ 0 → c.trunc_offset + c.trunc_len ≤ c.trunc_alloc_len)
    (hcall : c.trunc_len ≠ 0 → len ≤ c.trunc_len)
    (hTx : ∀ k, tx = TxResult.ok k → k ≤ len) :
    (lws_issue_raw c bufAddr buf len lwsPre tx mf fa).conn.trunc_len ≠ 0 →
      (lws_issue_raw c bufAddr buf len lwsPre tx mf fa).conn.trunc_offset +
        (lws_issue_raw c bufAddr buf len lwsPre tx mf fa).conn.trunc_len ≤
        (lws_issue_raw c bufAddr buf len lwsPre tx mf fa).conn.trunc_alloc_len := by
  unfold lws_issue_raw
  split_ifs <;>
    first
      | exact hInv
      | (cases tx with
          | fatal => exact hInv
          | moreService =>
            refine issueAfterTx_invariant _ buf len _ 0 mf fa hInv ?_
            intro h
            exact Nat.zero_le _
          | ok k =>
            refine issueAfterTx_invariant _ buf len _ k mf fa hInv ?_
            intro h
            have h1 := hTx k rfl
            have h2 := hcall h
            show k ≤ c.trunc_len
            omega)

/-- Witness for `claim6_trunc_invariant` on a concrete replay call whose
transport accepts nothing, leaving the truncation pending. -/
theorem claim6_trunc_invariant_witness :
    (lws_issue_raw connTrunc 101 [8] 1 16 (TxResult.ok 0) false 0).conn.trunc_offset +
      (lws_issue_raw connTrunc 101 [8] 1 16 (TxResult.ok 0) false 0).conn.trunc_len ≤
      (lws_issue_raw connTrunc 101 [8] 1 16 (TxResult.ok 0) false 0).conn.trunc_alloc_len :=
  claim6_trunc_invariant connTrunc 101 [8] 1 16 (TxResult.ok 0) false 0
    (by decide) (by decide) (by intro k hk; cases hk; decide) (by decide)

/-- Claim C8 counterexample: on `connTrunc` the pending region in the
claim's sense is `trunc_alloc[trunc_offset .. trunc_offset + trunc_len]`
= addresses 101..102, yet a call with `buf` at address 100 — strictly
below `trunc_addr + trunc_offset` — is not rejected: it reaches the
transport (`offered = some 1`) and returns non-negatively, because the
code's guard accepts any `buf` in `[trunc_alloc ..
trunc_alloc + trunc_len + trunc_offset]`. -/
theorem claim8_counterexample :
    connTrunc.trunc_len ≠ 0 ∧
    100 < connTrunc.trunc_addr + connTrunc.trunc_offset ∧
    (lws_issue_raw connTrunc 100 [5] 1 16 (TxResult.ok 1) false 0).offered = some 1 ∧
    (lws_issue_raw connTrunc 100 [5] 1 16 (TxResult.ok 1) false 0).ret = 1 := by
  refine ⟨by decide, by decide, rfl, rfl⟩

/-- Claim C8 (amended): while `trunc_len > 0`, `lws_issue_raw` rejects —
returning -1 with no transport contact and no state change — exactly the
calls whose `buf` lies outside `trunc_alloc[0 .. trunc_offset +
trunc_len]` (the code measures the window from the buffer base, not from
`trunc_offset`); every `buf` inside that window passes the guard and
reaches the transport. -/
theorem claim8_trunc_region_guard (c : IssueConn) (bufAddr : Nat) (buf : List Nat)
    (len lwsPre : Nat) (tx : TxResult) (mf : Bool) (fa : Nat)
    (h0 : c.could_have_pending = false) (h1 : c.trunc_len ≠ 0) (h2 : len ≠ 0) :
    (bufAddr < c.trunc_addr ∨ c.trunc_addr + c.trunc_len + c.trunc_offset < bufAddr →
      lws_issue_raw c bufAddr buf len lwsPre tx mf fa = ⟨-1, c, none, false⟩) ∧
    (c.trunc_addr ≤ bufAddr → bufAddr ≤ c.trunc_addr + c.trunc_len + c.trunc_offset →
      ((lws_issue_raw c bufAddr buf len lwsPre tx mf fa).offered).isSome = true) := by
  have hf : ¬ (c.flushing = true ∧ c.trunc_len = 0) := by simp [h1]
  constructor
  · intro h3
    simp [lws_issue_raw, h0, h2, hf, h1, h3]
  · intro h3 h4
    have hg : ¬ (c.trunc_len ≠ 0 ∧
        (bufAddr < c.trunc_addr ∨ c.trunc_addr + c.trunc_len + c.trunc_offset < bufAddr)) := by
      intro hc
      rcases hc.2 with h | h <;> omega
    cases tx <;> simp [lws_issue_raw, h0, h2, hf, hg, issueAfterTx_offered]

/-- Witness for `claim8_trunc_region_guard`: a write from below the
truncation buffer is rejected untouched. -/
theorem claim8_trunc_region_guard_witness :
    lws_issue_raw connTrunc 99 [5] 1 16 (TxResult.ok 1) false 0
      = ⟨-1, connTrunc, none, false⟩ :=
  (claim8_trunc_region_guard connTrunc 99 [5] 1 16 (TxResult.ok 1) false 0
      rfl (by decide) (by decide)).1 (by decide)

/-- The extension-access tail always hands exactly the prepared wire
bytes to the raw layer. -/
theorem extAccessTail_eff (ws : WsConn) (wire : List Nat) (len pre : Nat) (env : WriteEnv) :
    (extAccessTail ws wire len pre env).eff = WriteEff.toRaw wire := by
  unfold extAccessTail
  split_ifs <;> rfl

/-- The `send_raw` dispatch always hands exactly the prepared wire bytes
to the raw layer. -/
theorem sendRawStage_eff (c : WriteConn) (ws : WsConn) (wire : List Nat) (len : Nat)
    (wpf pre : Nat) (env : WriteEnv) :
    (sendRawStage c ws wire len wpf pre env).eff = WriteEff.toRaw wire := by
  unfold sendRawStage
  split_ifs <;> simp [extAccessTail_eff]

/-- Neither the `send_raw` dispatch nor the extension-access tail
touches the frame nonce or the running mask index. -/
theorem sendRawStage_mask (c : WriteConn) (ws : WsConn) (wire : List Nat) (len : Nat)
    (wpf pre : Nat) (env : WriteEnv) :
    (sendRawStage c ws wire len wpf pre env).ws.mask = ws.mask ∧
    (sendRawStage c ws wire len wpf pre env).ws.mask_idx = ws.mask_idx := by
  unfold sendRawStage extAccessTail
  split_ifs <;> exact ⟨rfl, rfl⟩

/-- A `wp` whose low opcode nibble is accepted by the frame-opcode
switch is not one of the HTTP write classes that bypass ws framing. -/
theorem opcFor_not_http (wp opc : Nat) (h : opcFor (wp &&& 0xf) = some opc) :
    ¬ (wp &&& 0x1f = LWS_WRITE_HTTP ∨ wp &&& 0x1f = LWS_WRITE_HTTP_FINAL ∨
       wp &&& 0x1f = LWS_WRITE_HTTP_HEADERS_CONTINUATION ∨
       wp &&& 0x1f = LWS_WRITE_HTTP_HEADERS) := by
  have h31 : (31 : Nat) &&& 15 = 15 := by decide
  have hfand : wp &&& 0x1f &&& 0xf = wp &&& 0xf := by
    rw [Nat.land_assoc, h31]
  intro hc
  rcases hc with hq | hq | hq | hq
  · rw [← hfand, hq, (by decide : LWS_WRITE_HTTP &&& 0xf = 3),
      (by decide : opcFor 3 = none)] at h
    exact Option.noConfusion h
  · rw [← hfand, hq, (by decide : LWS_WRITE_HTTP_FINAL &&& 0xf = 7),
      (by decide : opcFor 7 = none)] at h
    exact Option.noConfusion h
  · rw [← hfand, hq, (by decide : LWS_WRITE_HTTP_HEADERS_CONTINUATION &&& 0xf = 9),
      (by decide : opcFor 9 = none)] at h
    exact Option.noConfusion h
  · rw [← hfand, hq, (by decide : LWS_WRITE_HTTP_HEADERS &&& 0xf = 8),
      (by decide : opcFor 8 = none)] at h
    exact Option.noConfusion h

/-- On a fresh frame (header still to be synthesized) in a ws-writable
state with revision 13 and an accepted opcode, `lws_write` hands the raw
layer the synthesized base header, followed for a client by the fresh
nonce and the masked payload, and for a server by the payload as is. -/
theorem lws_write_fresh_frame (c : WriteConn) (p : List Nat) (len wp : Nat)
    (env : WriteEnv) (opc : Nat)
    (hpar : c.parentCarries = false) (hlen : len < 2 ^ 31)
    (hdrain : c.ws.tx_draining_ext = false) (hstate : c.state_is_ws = true)
    (hin : c.ws.inside_frame = false) (hstash : c.ws.stashed_write_pending = false)
    (hrev : c.ietf_spec_revision = 13)
    (hopc : opcFor (wp &&& 0xf) = some opc)
    (hrand : c.isClient = true → env.randOk = true) :
    (lws_write c p len wp env).eff = WriteEff.toRaw
      (frameHeader (if wp &&& LWS_WRITE_NO_FIN = 0 then opc ||| (1 <<< 7) else opc)
         (if c.isClient then 0x80 else 0) env.lp64 len ++
       (if c.isClient then env.nonce ++ maskPayload env.nonce 0 p else p)) ∧
    (c.isClient = true →
      (lws_write c p len wp env).ws.mask = env.nonce ∧
      (lws_write c p len wp env).ws.mask_idx = len) := by
  have hhttp := opcFor_not_http wp opc hopc
  simp only [lws_write, hpar, hdrain, hstate, hin, hstash, hrev, hopc, Bool.false_eq_true,
    false_and, if_false, if_neg hhttp, and_false, ite_false, if_neg (by omega : ¬ 2 ^ 31 ≤ len)]
  simp only [Bool.true_eq_false, false_and, if_false, if_true]
  by_cases hcl : c.isClient = true
  · simp only [hcl, if_true]
    unfold maskStage
    rw [if_pos hcl, if_neg (by simp [hrand hcl]), if_pos (rfl : (true : Bool) = true)]
    refine ⟨?_, fun _ => ⟨?_, ?_⟩⟩
    · rw [sendRawStage_eff, List.append_assoc]
    · rw [(sendRawStage_mask _ _ _ _ _ _ _).1]
    · rw [(sendRawStage_mask _ _ _ _ _ _ _).2]
  · have hcf : c.isClient = false := by simpa using hcl
    simp only [hcf, Bool.false_eq_true, if_false]
    unfold maskStage
    rw [if_neg (by simp [hcf])]
    exact ⟨sendRawStage_eff _ _ _ _ _ _ _, fun hx => absurd hx (by simp [hcf])⟩

/-- The synthesized base header is 2 bytes for payloads under 126, 4
bytes under 65536, and 10 bytes otherwise. -/
theorem frameHeader_length (b mb : Nat) (lp64 : Bool) (len : Nat) :
    (frameHeader b mb lp64 len).length
      = if len < 126 then 2 else if len < 65536 then 4 else 10 := by
  unfold frameHeader
  split_ifs <;> simp

/-- Byte 0 of the synthesized header is the opcode-plus-FIN byte. -/
theorem frameHeader_byte0 (b mb : Nat) (lp64 : Bool) (len : Nat) :
    (frameHeader b mb lp64 len).getD 0 0 = b % 256 := by
  unfold frameHeader
  split_ifs <;> rfl

/-- The short-length byte `len | is_masked_bit` agrees with `len` on the
seven low bits. -/
theorem byte1_low_bits (mb len : Nat) (hmb : mb = 0 ∨ mb = 128) (i : Nat) (hi : i < 7) :
    ((len ||| mb) % 256).testBit i = len.testBit i := by
  rw [(by norm_num : (256 : Nat) = 2 ^ 8), Nat.testBit_mod_two_pow, Nat.testBit_lor]
  rcases hmb with hmb | hmb <;> subst hmb
  · simp [Nat.zero_testBit, show i < 8 by omega]
  · rw [(by norm_num : (128 : Nat) = 2 ^ 7), Nat.testBit_two_pow_of_ne (by omega : 7 ≠ i)]
    simp [show i < 8 by omega]

/-- The opcode switch only produces the six RFC 6455 opcodes. -/
theorem opcFor_cases (w opc : Nat) (h : opcFor w = some opc) :
    opc = LWSWSOPC_TEXT_FRAME ∨ opc = LWSWSOPC_BINARY_FRAME ∨
    opc = LWSWSOPC_CONTINUATION ∨ opc = LWSWSOPC_CLOSE ∨
    opc = LWSWSOPC_PING ∨ opc = LWSWSOPC_PONG := by
  unfold opcFor at h
  split_ifs at h <;> simp_all

/-- Every accepted opcode fits in the low seven bits. -/
theorem opcFor_lt (w opc : Nat) (h : opcFor w = some opc) : opc < 2 ^ 7 := by
  rcases opcFor_cases w opc h with h | h | h | h | h | h <;> subst h <;> decide

/-- Bit 7 of the opcode byte is set exactly when `NO_FIN` is absent from
`wp`. -/
theorem fin_bit (wp opc : Nat) (hlt : opc < 2 ^ 7) :
    (((if wp &&& LWS_WRITE_NO_FIN = 0 then opc ||| (1 <<< 7) else opc) % 256).testBit 7
      = true) ↔ wp &&& LWS_WRITE_NO_FIN = 0 := by
  rw [(by norm_num : (256 : Nat) = 2 ^ 8)]
  by_cases hfin : wp &&& LWS_WRITE_NO_FIN = 0
  · rw [if_pos hfin, Nat.testBit_mod_two_pow, Nat.testBit_lor]
    simp [hfin, (by decide : Nat.testBit 128 7 = true)]
  · rw [if_neg hfin, Nat.testBit_mod_two_pow, Nat.testBit_eq_false_of_lt hlt]
    simp [hfin]

/-- The 2-byte header form for payloads under 126 bytes. -/
theorem frameHeader_small (b mb : Nat) (lp64 : Bool) (len : Nat) (h : len < 126) :
    frameHeader b mb lp64 len = [b % 256, (len ||| mb) % 256] := by
  unfold frameHeader
  rw [if_pos h]

/-- The 4-byte header form with the 126 indicator and the big-endian
16-bit length. -/
theorem frameHeader_medium (b mb : Nat) (lp64 : Bool) (len : Nat)
    (h1 : 126 ≤ len) (h2 : len < 65536) :
    frameHeader b mb lp64 len
      = [b % 256, (126 ||| mb) % 256, (len >>> 8) % 256, len % 256] := by
  unfold frameHeader
  rw [if_neg (by omega), if_pos h2]

/-- The 10-byte header form with the 127 indicator on a non-LP64 (32-bit)
configuration: the four most significant extended-length bytes are
written as zero. -/
theorem frameHeader_large (b mb : Nat) (len : Nat) (h : 65536 ≤ len) :
    frameHeader b mb false len
      = [b % 256, (127 ||| mb) % 256, 0, 0, 0, 0,
         (len >>> 24) % 256, (len >>> 16) % 256, (len >>> 8) % 256, len % 256] := by
  unfold frameHeader
  rw [if_neg (by omega), if_neg (by omega)]
  simp

/-- Claim C1: a ws data write assembled by `lws_write` outside an open
frame hands the raw layer the synthesized RFC 6455 header followed by
the payload (nonce and masked payload for a client); the base header is
2 bytes when `len < 126` (byte 1 carrying `len` in its low seven bits),
4 bytes when `len < 65536` (indicator 126 then 2 bytes big-endian), and
10 bytes otherwise (indicator 127 then 8 bytes big-endian) with the four
most significant extended-length bytes zero on non-LP64 configurations;
and bit 7 of byte 0 (FIN) is set exactly when the `NO_FIN` flag is
absent from `wp`. -/
theorem claim1_frame_header (c : WriteConn) (p : List Nat) (len wp : Nat)
    (env : WriteEnv) (opc : Nat)
    (hpar : c.parentCarries = false) (hlen : len < 2 ^ 31)
    (hdrain : c.ws.tx_draining_ext = false) (hstate : c.state_is_ws = true)
    (hin : c.ws.inside_frame = false) (hstash : c.ws.stashed_write_pending = false)
    (hrev : c.ietf_spec_revision = 13)
    (hopc : opcFor (wp &&& 0xf) = some opc)
    (hrand : c.isClient = true → env.randOk = true) :
    ((lws_write c p len wp env).eff = WriteEff.toRaw
      (frameHeader (if wp &&& LWS_WRITE_NO_FIN = 0 then opc ||| (1 <<< 7) else opc)
         (if c.isClient then 0x80 else 0) env.lp64 len ++
       (if c.isClient then env.nonce ++ maskPayload env.nonce 0 p else p))) ∧
    ((frameHeader (if wp &&& LWS_WRITE_NO_FIN = 0 then opc ||| (1 <<< 7) else opc)
        (if c.isClient then 0x80 else 0) env.lp64 len).length
      = if len < 126 then 2 else if len < 65536 then 4 else 10) ∧
    (len < 126 →
      frameHeader (if wp &&& LWS_WRITE_NO_FIN = 0 then opc ||| (1 <<< 7) else opc)
          (if c.isClient then 0x80 else 0) env.lp64 len
        = [(if wp &&& LWS_WRITE_NO_FIN = 0 then opc ||| (1 <<< 7) else opc) % 256,
           (len ||| (if c.isClient then 0x80 else 0)) % 256] ∧
      ∀ i, i < 7 →
        ((len ||| (if c.isClient then 0x80 else 0)) % 256).testBit i = len.testBit i) ∧
    (126 ≤ len → len < 65536 →
      frameHeader (if wp &&& LWS_WRITE_NO_FIN = 0 then opc ||| (1 <<< 7) else opc)
          (if c.isClient then 0x80 else 0) env.lp64 len
        = [(if wp &&& LWS_WRITE_NO_FIN = 0 then opc ||| (1 <<< 7) else opc) % 256,
           (126 ||| (if c.isClient then 0x80 else 0)) % 256,
           (len >>> 8) % 256, len % 256] ∧
      (len >>> 8) % 256 * 256 + len % 256 = len) ∧
    (65536 ≤ len → env.lp64 = false →
      frameHeader (if wp &&& LWS_WRITE_NO_FIN = 0 then opc ||| (1 <<< 7) else opc)
          (if c.isClient then 0x80 else 0) env.lp64 len
        = [(if wp &&& LWS_WRITE_NO_FIN = 0 then opc ||| (1 <<< 7) else opc) % 256,
           (127 ||| (if c.isClient then 0x80 else 0)) % 256, 0, 0, 0, 0,
           (len >>> 24) % 256, (len >>> 16) % 256, (len >>> 8) % 256, len % 256] ∧
      (len >>> 24) % 256 * 2 ^ 24 + (len >>> 16) % 256 * 2 ^ 16 +
        (len >>> 8) % 256 * 2 ^ 8 + len % 256 = len) ∧
    ((((frameHeader (if wp &&& LWS_WRITE_NO_FIN = 0 then opc ||| (1 <<< 7) else opc)
          (if c.isClient then 0x80 else 0) env.lp64 len).getD 0 0).testBit 7 = true)
      ↔ wp &&& LWS_WRITE_NO_FIN = 0) := by
  have hmb : (if c.isClient then (0x80 : Nat) else 0) = 0 ∨
      (if c.isClient then (0x80 : Nat) else 0) = 128 := by
    split_ifs <;> simp
  refine ⟨(lws_write_fresh_frame c p len wp env opc hpar hlen hdrain hstate hin hstash
            hrev hopc hrand).1,
          frameHeader_length _ _ _ _, ?_, ?_, ?_, ?_⟩
  · intro h
    exact ⟨frameHeader_small _ _ _ _ h, fun i hi => byte1_low_bits _ len hmb i hi⟩
  · intro h1 h2
    exact ⟨frameHeader_medium _ _ _ _ h1 h2, by omega⟩
  · intro h1 hlp
    rw [hlp]
    exact ⟨frameHeader_large _ _ _ h1, by omega⟩
  · rw [frameHeader_byte0]
    exact fin_bit wp opc (opcFor_lt _ _ hopc)

/-- Witness for `claim1_frame_header`: a 2-byte server TEXT write. -/
theorem claim1_frame_header_witness :
    (lws_write serverConn [104, 105] 2 LWS_WRITE_TEXT envBase).eff = WriteEff.toRaw
      (frameHeader (if LWS_WRITE_TEXT &&& LWS_WRITE_NO_FIN = 0 then 1 ||| (1 <<< 7) else 1)
         (if serverConn.isClient then 0x80 else 0) envBase.lp64 2 ++
       (if serverConn.isClient then envBase.nonce ++ maskPayload envBase.nonce 0 [104, 105]
        else [104, 105])) :=
  (claim1_frame_header serverConn [104, 105] 2 LWS_WRITE_TEXT envBase 1
    rfl (by decide) rfl rfl rfl rfl rfl rfl (fun h => absurd h (by decide))).1

/-- Claim C2 counterexample: re-entering `lws_write` mid-frame
(`inside_frame` set) on a client connection emits the payload byte 7
unchanged, although continuing the preserved mask `[1, 0, 0, 0]` at
`mask_idx = 4` would emit `7 XOR 1 = 6`: `dropmask` is never set on the
inside-frame path, so no masking is applied there. -/
theorem claim2_mask_counterexample :
    clientInsideConn.ws.inside_frame = true ∧
    (lws_write clientInsideConn [7] 1 LWS_WRITE_CONTINUATION envRaw1).eff
      = WriteEff.toRaw [7] ∧
    maskPayload clientInsideConn.ws.mask clientInsideConn.ws.mask_idx [7] = [6] ∧
    (7 : Nat) ≠ 6 :=
  ⟨rfl, rfl, rfl, by decide⟩

/-- Claim C2 (amended): on the first emission of a frame a client write
carries a fresh 4-byte nonce and every payload byte `i` is emitted as
`p[i] XOR nonce[(mask_idx + i) mod 4]` with `mask_idx` starting at 0 and
left at `len`; on re-entry with `inside_frame` set the nonce and
`mask_idx` are preserved unchanged but the remaining payload bytes are
emitted without any XOR (the masking loop is tied to `dropmask`, which
is never set inside a frame). -/
theorem claim2_masking_amended :
    (∀ (c : WriteConn) (p : List Nat) (len wp : Nat) (env : WriteEnv) (opc : Nat),
      c.parentCarries = false → len < 2 ^ 31 → c.ws.tx_draining_ext = false →
      c.state_is_ws = true → c.ws.inside_frame = false →
      c.ws.stashed_write_pending = false → c.ietf_spec_revision = 13 →
      opcFor (wp &&& 0xf) = some opc → c.isClient = true → env.randOk = true →
      (lws_write c p len wp env).eff = WriteEff.toRaw
        (frameHeader (if wp &&& LWS_WRITE_NO_FIN = 0 then opc ||| (1 <<< 7) else opc)
           0x80 env.lp64 len ++ env.nonce ++ maskPayload env.nonce 0 p) ∧
      (lws_write c p len wp env).ws.mask = env.nonce ∧
      (lws_write c p len wp env).ws.mask_idx = len) ∧
    (∀ (c : WriteConn) (p : List Nat) (len wp : Nat) (env : WriteEnv),
      c.parentCarries = false → len < 2 ^ 31 → c.ws.tx_draining_ext = false →
      c.state_is_ws = true → c.ws.inside_frame = true →
      ¬ (wp &&& 0x1f = LWS_WRITE_HTTP ∨ wp &&& 0x1f = LWS_WRITE_HTTP_FINAL ∨
         wp &&& 0x1f = LWS_WRITE_HTTP_HEADERS_CONTINUATION ∨
         wp &&& 0x1f = LWS_WRITE_HTTP_HEADERS) →
      (lws_write c p len wp env).eff = WriteEff.toRaw p ∧
      (lws_write c p len wp env).ws.mask = c.ws.mask ∧
      (lws_write c p len wp env).ws.mask_idx = c.ws.mask_idx) ∧
    (∀ (m : List Nat) (idx : Nat) (p : List Nat) (i : Nat), i < p.length →
      (maskPayload m idx p).getD i 0 = p.getD i 0 ^^^ m.getD ((idx + i) &&& 3) 0) := by
  refine ⟨?_, ?_, ?_⟩
  · intro c p len wp env opc h1 h2 h3 h4 h5 h6 h7 h8 hcl hrnd
    have hf := lws_write_fresh_frame c p len wp env opc h1 h2 h3 h4 h5 h6 h7 h8
      (fun _ => hrnd)
    rcases hf with ⟨he, hm⟩
    simp only [hcl, if_true] at he
    refine ⟨?_, (hm hcl).1, (hm hcl).2⟩
    rw [he, List.append_assoc]
  · intro c p len wp env h1 h2 h3 h4 h5 hh
    simp only [lws_write, h1, h3, h4, h5, Bool.false_eq_true, Bool.true_eq_false,
      false_and, if_false, if_neg hh, ite_false, if_true,
      if_neg (by omega : ¬ 2 ^ 31 ≤ len)]
    exact ⟨sendRawStage_eff _ _ _ _ _ _ _, (sendRawStage_mask _ _ _ _ _ _ _).1,
      (sendRawStage_mask _ _ _ _ _ _ _).2⟩
  · intro m idx p
    induction p generalizing idx with
    | nil =>
      intro i hi
      simp at hi
    | cons b rest ih =>
      intro i hi
      cases i with
      | zero => simp [maskPayload]
      | succ j =>
        have harg : idx + (j + 1) = idx + 1 + j := by omega
        simp only [maskPayload, List.getD_cons_succ, harg]
        exact ih (idx + 1) j (by simpa using hi)

/-- Witness for `claim2_masking_amended`: the inside-frame component at
a concrete mid-frame continuation. -/
theorem claim2_masking_amended_witness :
    (lws_write clientInsideConn [7] 1 LWS_WRITE_CONTINUATION envRaw1).eff
      = WriteEff.toRaw [7] ∧
    (lws_write clientInsideConn [7] 1 LWS_WRITE_CONTINUATION envRaw1).ws.mask
      = clientInsideConn.ws.mask ∧
    (lws_write clientInsideConn [7] 1 LWS_WRITE_CONTINUATION envRaw1).ws.mask_idx
      = clientInsideConn.ws.mask_idx :=
  claim2_masking_amended.2.1 clientInsideConn [7] 1 LWS_WRITE_CONTINUATION envRaw1
    rfl (by decide) rfl rfl rfl (by decide)

/-- Claim C7 counterexample: on a parent-carried connection whose parent
callback returns the non-zero value 5, `lws_write` of 5 bytes returns 1
— a positive value, not a negative one and not `len`. -/
theorem claim7_parent_counterexample :
    childConn.parentCarries = true ∧
    (lws_write childConn [1, 2, 3, 4, 5] 5 LWS_WRITE_TEXT envParentFails).ret = 1 ∧
    ¬ ((lws_write childConn [1, 2, 3, 4, 5] 5 LWS_WRITE_TEXT envParentFails).ret < 0) ∧
    (lws_write childConn [1, 2, 3, 4, 5] 5 LWS_WRITE_TEXT envParentFails).ret ≠ 5 :=
  ⟨rfl, rfl, by decide, by decide⟩

/-- Claim C7 (amended): a write on a parent-carried connection packs
`{buf, len, wp}` into a pass-through record for the parent protocol's
CHILD_WRITE_VIA_PARENT callback and returns `len` when the callback
returns zero; on any non-zero callback return it returns the in-band
value 1, not a negative value. -/
theorem claim7_parent_passthru (c : WriteConn) (p : List Nat) (len wp : Nat)
    (env : WriteEnv) (h : c.parentCarries = true) :
    (lws_write c p len wp env).eff = WriteEff.toParent p len wp ∧
    (env.parentCbRet = 0 → (lws_write c p len wp env).ret = (len : Int)) ∧
    (env.parentCbRet ≠ 0 → (lws_write c p len wp env).ret = 1) := by
  unfold lws_write
  rw [if_pos h]
  refine ⟨rfl, ?_, ?_⟩
  · intro h0
    simp [h0]
  · intro h0
    simp [h0]

/-- Witness for `claim7_parent_passthru`: a 1-byte delegated write whose
parent callback succeeds. -/
theorem claim7_parent_passthru_witness :
    (lws_write childConn [9] 1 LWS_WRITE_TEXT envBase).eff
      = WriteEff.toParent [9] 1 LWS_WRITE_TEXT ∧
    (lws_write childConn [9] 1 LWS_WRITE_TEXT envBase).ret = (1 : Int) :=
  ⟨(claim7_parent_passthru childConn [9] 1 LWS_WRITE_TEXT envBase rfl).1,
   (claim7_parent_passthru childConn [9] 1 LWS_WRITE_TEXT envBase rfl).2.1 rfl⟩

/-- Claim C9: when the final byte of the final range of a multipart
(2+ ranges) byte-range response has been produced, the pump appends the
6-byte trailing boundary `_lws` CR LF after the `n` body bytes in the
scratch buffer and the payload length handed on to `lws_write` grows by
exactly those 6 bytes. -/
theorem claim9_trailing_boundary (send_ctr count_ranges budget amount n : Nat)
    (pstart : List Nat)
    (h1 : send_ctr + 1 = count_ranges) (h2 : 1 < count_ranges)
    (h3 : budget = amount) (hn : pstart.length = n) :
    (rangesTrailingBoundary send_ctr count_ranges budget amount pstart n).1
      = pstart ++ boundaryBytes ∧
    (rangesTrailingBoundary send_ctr count_ranges budget amount pstart n).2 = n + 6 ∧
    boundaryBytes = [0x5f, 0x6c, 0x77, 0x73, 0x0d, 0x0a] ∧
    boundaryBytes.length = 6 := by
  unfold rangesTrailingBoundary
  rw [if_pos ⟨h1, h2, h3⟩]
  unfold lws_snprintf
  refine ⟨?_, ?_, rfl, rfl⟩
  · show pstart.take n ++ boundaryBytes.take 6 ++
      pstart.drop (n + (boundaryBytes.take 6).length) = pstart ++ boundaryBytes
    rw [(by rfl : boundaryBytes.take 6 = boundaryBytes), ← hn, List.take_length,
      List.drop_eq_nil_of_le (by simp), List.append_nil]
  · rfl

/-- Witness for `claim9_trailing_boundary` on a 3-byte final fragment of
the second of two ranges. -/
theorem claim9_trailing_boundary_witness :
    (rangesTrailingBoundary 1 2 10 10 [1, 2, 3] 3).1 = [1, 2, 3] ++ boundaryBytes ∧
    (rangesTrailingBoundary 1 2 10 10 [1, 2, 3] 3).2 = 3 + 6 ∧
    boundaryBytes = [0x5f, 0x6c, 0x77, 0x73, 0x0d, 0x0a] ∧
    boundaryBytes.length = 6 :=
  claim9_trailing_boundary 1 2 10 10 3 [1, 2, 3] rfl (by decide) rfl rfl

end LwsOutput
